import Mathlib

/-!
Shallow embedding of the price-retrieval core of `backend/server.py`
(Simplify-Money-Gold-app): the upstream fetch `fetch_metal_price_from_api`,
the per-metal resolver `get_metal_price`, the batch endpoint
`get_all_metal_prices`, and the static fallback table `MOCK_METAL_PRICES`.

Modelling conventions:
* Python floats are modelled as exact rationals (`ℚ`); `round(x, 2)` is
  modelled as rounding `100 * x` to the nearest integer (no claim settled
  here depends on the tie-breaking convention).
* The upstream HTTP interaction is a parameter: an `UpstreamOutcome` is
  either a received response (status code plus parsed JSON body, whose
  fields are all optional, mirroring `dict.get`) or a raised transport
  error / timeout.
* `datetime.now()` is a parameter `now : DTime` carrying the two string
  renderings the code uses (`strftime("%Y-%m-%d %H:%M:%S")`, `isoformat()`).
* Python's ASCII `str.lower()` / `str.title()` are `pyLower` / `pyTitle`,
  built on core's `Char.toLower` / `Char.toUpper` (the same ASCII maps).
-/

namespace SimplifyMoney

/-- Python `str.lower()` restricted to ASCII case mapping. -/
def pyLower (s : String) : String := ⟨s.data.map Char.toLower⟩

/-- Worker for `pyTitle`: the boolean records whether the previous
character was cased (alphabetic), in which case the next letter is
lowercased rather than uppercased. -/
def pyTitleAux : Bool → List Char → List Char
  | _, [] => []
  | prevCased, c :: cs =>
    (if c.isAlpha then (if prevCased then c.toLower else c.toUpper) else c)
      :: pyTitleAux c.isAlpha cs

/-- Python `str.title()` restricted to ASCII: a letter is uppercased when
not preceded by a letter, lowercased otherwise. -/
def pyTitle (s : String) : String := ⟨pyTitleAux false s.data⟩

/-- `GOLD_API_BASE_URL` constant from server.py. -/
def GOLD_API_BASE_URL : String := "https://www.goldapi.io/api"

/-- The fixed `usd_to_inr = 83.5` conversion rate hard-coded in
`fetch_metal_price_from_api`. -/
def usd_to_inr : ℚ := 83.5

/-- The troy-ounce-to-gram literal `31.1035` hard-coded in
`fetch_metal_price_from_api`. -/
def TROY_OUNCE_GRAMS : ℚ := 31.1035

/-- Python `round(x, 2)` on the exact rational model. -/
def round2 (x : ℚ) : ℚ := (round (100 * x) : ℤ) / 100

/-- The conversion expression `round((usd_per_oz / 31.1035) * usd_to_inr, 2)`
that server.py applies to the price and each OHLC field. -/
def toGramsInr (usd_per_oz : ℚ) : ℚ := round2 (usd_per_oz / TROY_OUNCE_GRAMS * usd_to_inr)

/-- Parsed JSON body of a goldapi.io response; every field is optional,
read via `data.get(...)`. -/
structure GoldApiBody where
  price : Option ℚ
  ch : Option ℚ
  chp : Option ℚ
  prev_close_price : Option ℚ
  open_price : Option ℚ
  high_price : Option ℚ
  low_price : Option ℚ
deriving DecidableEq, Repr

/-- Outcome of the single `client.get` call inside
`fetch_metal_price_from_api`: an HTTP response with some status code and
parsed body, or a raised transport error, or a raised timeout. -/
inductive UpstreamOutcome where
  | response (status : Nat) (body : GoldApiBody)
  | transportError
  | timeout
deriving DecidableEq, Repr

/-- The `metal_endpoints` dict of `fetch_metal_price_from_api`, as a
partial lookup (Python `metal.lower() in metal_endpoints` /
`metal_endpoints[metal.lower()]`). -/
def metal_endpoints (m : String) : Option String :=
  if m = "gold" then some (GOLD_API_BASE_URL ++ "/XAU/USD")
  else if m = "silver" then some (GOLD_API_BASE_URL ++ "/XAG/USD")
  else if m = "platinum" then some (GOLD_API_BASE_URL ++ "/XPT/USD")
  else if m = "palladium" then some (GOLD_API_BASE_URL ++ "/XPD/USD")
  else none

/-- The dict returned by `fetch_metal_price_from_api` on a 200 response. -/
structure FetchedData where
  price_per_oz_usd : ℚ
  price_per_gram_inr : ℚ
  change_24h : ℚ
  change_pct : ℚ
  prev_close_price : ℚ
  open_price : ℚ
  high_price : ℚ
  low_price : ℚ
deriving DecidableEq, Repr

/-- Observable behaviour of one call to `fetch_metal_price_from_api`:
the returned value (`None` is `none`) together with whether the outbound
`client.get` request was performed. -/
structure FetchTrace where
  result : Option FetchedData
  requested : Bool
deriving DecidableEq, Repr

/-- `fetch_metal_price_from_api(metal)` from server.py.  The entire body
sits in one `try` whose `except Exception` logs and returns `None`; in
particular the `raise HTTPException(status_code=400, ...)` for an
unsupported metal is caught by that same handler, so the function returns
`None` (without having performed the network request).  On a non-200
response it returns `None`; on a 200 response it builds the converted
dict, with every missing JSON field defaulted as in the source
(`data.get('price', 0)`, `data.get('ch', 0)`, `data.get('chp', 0)`, and
the quoted price for the four OHLC fields). -/
def fetch_metal_price_from_api (metal : String) (outcome : UpstreamOutcome) : FetchTrace :=
  match metal_endpoints (pyLower metal) with
  | none => { result := none, requested := false }
  | some _ =>
    { requested := true
      result :=
        match outcome with
        | .response status data =>
          if status = 200 then
            let price_per_oz_usd := data.price.getD 0
            some
              { price_per_oz_usd := price_per_oz_usd
                price_per_gram_inr := toGramsInr price_per_oz_usd
                change_24h := data.ch.getD 0
                change_pct := data.chp.getD 0
                prev_close_price := toGramsInr (data.prev_close_price.getD price_per_oz_usd)
                open_price := toGramsInr (data.open_price.getD price_per_oz_usd)
                high_price := toGramsInr (data.high_price.getD price_per_oz_usd)
                low_price := toGramsInr (data.low_price.getD price_per_oz_usd) }
          else none
        | .transportError => none
        | .timeout => none }

/-- FastAPI `HTTPException` payload. -/
structure HTTPError where
  status_code : Nat
  detail : String
deriving DecidableEq, Repr

/-- The two string renderings of one `datetime.now()` instant used by
`get_metal_price`. -/
structure DTime where
  strftime_val : String
  isoformat_val : String
deriving DecidableEq, Repr

/-- The `MetalPriceResponse` pydantic model (wire shape of one record). -/
structure MetalPriceResponse where
  metal : String
  price_per_gram_inr : ℚ
  current_time : String
  prev_close_price : ℚ
  open_price : ℚ
  high_price : ℚ
  low_price : ℚ
  change_24h : ℚ
  change_pct : ℚ
  timestamp : String
deriving DecidableEq, Repr

/-- One entry of the `MOCK_METAL_PRICES` fallback table. -/
structure MockRecord where
  price_per_oz_usd : ℚ
  price_per_gram_inr : ℚ
  change_24h : ℚ
  change_pct : ℚ
  prev_close_price : ℚ
  open_price : ℚ
  high_price : ℚ
  low_price : ℚ
deriving DecidableEq, Repr

/-- The static `MOCK_METAL_PRICES` dict of server.py, as a partial lookup
(Python `MOCK_METAL_PRICES.get(metal.lower())`). -/
def MOCK_METAL_PRICES (m : String) : Option MockRecord :=
  if m = "gold" then
    some { price_per_oz_usd := 2650.0, price_per_gram_inr := 7200.0
           change_24h := 15.5, change_pct := 0.58
           prev_close_price := 7184.5, open_price := 7190.0
           high_price := 7220.0, low_price := 7180.0 }
  else if m = "silver" then
    some { price_per_oz_usd := 31.2, price_per_gram_inr := 85.5
           change_24h := 0.8, change_pct := 2.63
           prev_close_price := 84.7, open_price := 85.0
           high_price := 86.2, low_price := 84.5 }
  else if m = "platinum" then
    some { price_per_oz_usd := 985.0, price_per_gram_inr := 2680.0
           change_24h := -12.3, change_pct := -0.46
           prev_close_price := 2692.3, open_price := 2685.0
           high_price := 2695.0, low_price := 2675.0 }
  else if m = "palladium" then
    some { price_per_oz_usd := 1050.0, price_per_gram_inr := 2855.0
           change_24h := 22.1, change_pct := 0.78
           prev_close_price := 2832.9, open_price := 2840.0
           high_price := 2860.0, low_price := 2835.0 }
  else none

/-- `get_metal_price(metal)` from server.py: try the API; if it returned a
(non-empty, hence truthy) dict, build the response from it; otherwise look
up the fallback table and build the response from the mock record, or
raise `HTTPException(404)` when the metal is unknown there too.  Both
success branches stamp the current time. -/
def get_metal_price (metal : String) (outcome : UpstreamOutcome) (now : DTime) :
    Except HTTPError MetalPriceResponse :=
  match (fetch_metal_price_from_api metal outcome).result with
  | some api_data =>
    .ok { metal := pyTitle metal
          price_per_gram_inr := api_data.price_per_gram_inr
          current_time := now.strftime_val
          prev_close_price := api_data.prev_close_price
          open_price := api_data.open_price
          high_price := api_data.high_price
          low_price := api_data.low_price
          change_24h := api_data.change_24h
          change_pct := api_data.change_pct
          timestamp := now.isoformat_val }
  | none =>
    match MOCK_METAL_PRICES (pyLower metal) with
    | none => .error { status_code := 404, detail := "Metal " ++ metal ++ " not found" }
    | some mock_data =>
      .ok { metal := pyTitle metal
            price_per_gram_inr := mock_data.price_per_gram_inr
            current_time := now.strftime_val
            prev_close_price := mock_data.prev_close_price
            open_price := mock_data.open_price
            high_price := mock_data.high_price
            low_price := mock_data.low_price
            change_24h := mock_data.change_24h
            change_pct := mock_data.change_pct
            timestamp := now.isoformat_val }

/-- The `metals` list hard-coded in `get_all_metal_prices`. -/
def metals : List String := ["gold", "silver", "platinum", "palladium"]

/-- Lines 211-219 of server.py: `asyncio.gather(..., return_exceptions=True)`
yields, per task, either its value or its raised exception; the list
comprehension keeps the `MetalPriceResponse` values; an empty result list
raises `HTTPException(500)`. -/
def aggregate_results (results : List (Except HTTPError MetalPriceResponse)) :
    Except HTTPError (List MetalPriceResponse) :=
  let successful_results := results.filterMap Except.toOption
  if successful_results.isEmpty then
    .error { status_code := 500, detail := "Could not fetch any metal prices" }
  else
    .ok successful_results

/-- `get_all_metal_prices()` from server.py: resolve the four hard-coded
metals (each task with its own upstream outcome and its own
`datetime.now()` reading) and aggregate. -/
def get_all_metal_prices (outcomes : String → UpstreamOutcome) (now : String → DTime) :
    Except HTTPError (List MetalPriceResponse) :=
  aggregate_results (metals.map fun m => get_metal_price m (outcomes m) (now m))

/-- `get_single_metal_price` route handler: it just awaits
`get_metal_price`, letting any `HTTPException` propagate. -/
def get_single_metal_price (metal : String) (outcome : UpstreamOutcome) (now : DTime) :
    Except HTTPError MetalPriceResponse :=
  get_metal_price metal outcome now

/-- The empty parsed JSON body `{}` (every optional field absent). -/
def emptyBody : GoldApiBody :=
  { price := none, ch := none, chp := none, prev_close_price := none
    open_price := none, high_price := none, low_price := none }

/-- The body `{price: 2000, ch: 10, chp: 0.5}` used by the spec's gold
example. -/
def goldBody2000 : GoldApiBody :=
  { price := some 2000, ch := some 10, chp := some 0.5, prev_close_price := none
    open_price := none, high_price := none, low_price := none }

/-- An arbitrary concrete clock reading. -/
def dt0 : DTime :=
  { strftime_val := "2025-01-01 00:00:00", isoformat_val := "2025-01-01T00:00:00" }

/-! ### Helper lemmas on ASCII case mapping -/

theorem uint32_le_iff_toNat_le {a b : UInt32} : a ≤ b ↔ a.toNat ≤ b.toNat := Iff.rfl

theorem char_toNat_ofNat {n : Nat} (h : n.isValidChar) : (Char.ofNat n).toNat = n := by
  simp [Char.ofNat, dif_pos h, Char.ofNatAux, Char.toNat, UInt32.toNat, BitVec.toNat_ofNatLt]

theorem char_eq_of_toNat_eq {a b : Char} (h : a.toNat = b.toNat) : a = b := by
  rw [← Char.ofNat_toNat a, ← Char.ofNat_toNat b, h]

theorem char_isAlpha_iff (c : Char) :
    c.isAlpha = true ↔ (65 ≤ c.toNat ∧ c.toNat ≤ 90) ∨ (97 ≤ c.toNat ∧ c.toNat ≤ 122) := by
  simp [Char.isAlpha, Char.isUpper, Char.isLower, uint32_le_iff_toNat_le, Char.toNat]
  norm_num

theorem char_toLower_toNat (c : Char) :
    (Char.toLower c).toNat = if 65 ≤ c.toNat ∧ c.toNat ≤ 90 then c.toNat + 32 else c.toNat := by
  unfold Char.toLower
  by_cases h : 65 ≤ c.toNat ∧ c.toNat ≤ 90
  · rw [if_pos ⟨h.1, h.2⟩, if_pos h]
    exact char_toNat_ofNat (Or.inl (by omega))
  · rw [if_neg (by exact fun hc => h ⟨hc.1, hc.2⟩), if_neg h]

theorem char_toUpper_toNat (c : Char) :
    (Char.toUpper c).toNat = if 97 ≤ c.toNat ∧ c.toNat ≤ 122 then c.toNat - 32 else c.toNat := by
  unfold Char.toUpper
  by_cases h : 97 ≤ c.toNat ∧ c.toNat ≤ 122
  · rw [if_pos ⟨h.1, h.2⟩, if_pos h]
    exact char_toNat_ofNat (Or.inl (by omega))
  · rw [if_neg (by exact fun hc => h ⟨hc.1, hc.2⟩), if_neg h]

theorem char_toLower_isAlpha (c : Char) : (Char.toLower c).isAlpha = c.isAlpha := by
  rw [Bool.eq_iff_iff, char_isAlpha_iff, char_isAlpha_iff, char_toLower_toNat]
  by_cases h : 65 ≤ c.toNat ∧ c.toNat ≤ 90
  · rw [if_pos h]; omega
  · rw [if_neg h]

theorem char_toLower_toLower (c : Char) : c.toLower.toLower = c.toLower := by
  apply char_eq_of_toNat_eq
  simp only [char_toLower_toNat]
  split_ifs <;> omega

theorem char_toLower_toUpper (c : Char) : c.toLower.toUpper = c.toUpper := by
  apply char_eq_of_toNat_eq
  simp only [char_toUpper_toNat, char_toLower_toNat]
  split_ifs <;> omega

theorem char_toLower_of_not_alpha {c : Char} (h : c.isAlpha = false) : c.toLower = c := by
  apply char_eq_of_toNat_eq
  rw [char_toLower_toNat, if_neg]
  intro hc
  have := (char_isAlpha_iff c).mpr (Or.inl hc)
  rw [h] at this
  exact Bool.false_ne_true this

theorem pyTitleAux_map_toLower (b : Bool) (cs : List Char) :
    pyTitleAux b (cs.map Char.toLower) = pyTitleAux b cs := by
  induction cs generalizing b with
  | nil => rfl
  | cons c cs ih =>
    simp only [List.map_cons, pyTitleAux, char_toLower_isAlpha, ih]
    rcases h : c.isAlpha with _ | _
    · rw [if_neg (by simp [h]), if_neg (by simp [h]), char_toLower_of_not_alpha h]
    · rw [if_pos rfl, if_pos rfl, char_toLower_toLower, char_toLower_toUpper]

theorem pyTitle_pyLower (s : String) : pyTitle (pyLower s) = pyTitle s := by
  simp only [pyTitle, pyLower, pyTitleAux_map_toLower]

theorem fetch_congr {s t : String} (hl : pyLower s = pyLower t) (oc : UpstreamOutcome) :
    fetch_metal_price_from_api s oc = fetch_metal_price_from_api t oc := by
  unfold fetch_metal_price_from_api
  rw [hl]

/-- `get_metal_price` reads its `metal` argument only through `pyLower`
and `pyTitle`, except in the 404 branch, which is dead as soon as the
fallback table covers `pyLower t`. -/
theorem gmp_congr {s t : String} (hl : pyLower s = pyLower t) (ht : pyTitle s = pyTitle t)
    (hmock : (MOCK_METAL_PRICES (pyLower t)).isSome) (oc : UpstreamOutcome) (now : DTime) :
    get_metal_price s oc now = get_metal_price t oc now := by
  unfold get_metal_price
  rw [fetch_congr hl oc, hl, ht]
  rcases hr : (fetch_metal_price_from_api t oc).result with _ | d
  · rcases hm2 : MOCK_METAL_PRICES (pyLower t) with _ | r
    · rw [hm2] at hmock
      simp at hmock
    · simp only [hm2]
  · simp only [hr]

/-! ### Helper lemmas on the fetch and resolve functions -/

/-- For an input whose lowercasing is not a supported symbol, the endpoint
dict lookup misses. -/
theorem metal_endpoints_none {m : String} (h : m ∉ metals) : metal_endpoints m = none := by
  simp only [metals, List.mem_cons, List.not_mem_nil, or_false, not_or] at h
  unfold metal_endpoints
  rw [if_neg h.1, if_neg h.2.1, if_neg h.2.2.1, if_neg h.2.2.2]

/-- For an input whose lowercasing is not a supported symbol, the fallback
dict lookup misses too. -/
theorem mock_none {m : String} (h : m ∉ metals) : MOCK_METAL_PRICES m = none := by
  simp only [metals, List.mem_cons, List.not_mem_nil, or_false, not_or] at h
  unfold MOCK_METAL_PRICES
  rw [if_neg h.1, if_neg h.2.1, if_neg h.2.2.1, if_neg h.2.2.2]

/-- Unsupported metal: the raised `HTTPException(400)` is swallowed by the
function's own handler, so the call returns `None` without having made the
network request. -/
theorem fetch_unsupported {metal : String} (h : pyLower metal ∉ metals)
    (oc : UpstreamOutcome) :
    fetch_metal_price_from_api metal oc = { result := none, requested := false } := by
  unfold fetch_metal_price_from_api
  rw [metal_endpoints_none h]

/-- Any upstream outcome other than a 200 response makes
`fetch_metal_price_from_api` return `None`. -/
theorem fetch_result_none_of_not200 (metal : String) (oc : UpstreamOutcome)
    (hoc : ∀ b, oc ≠ UpstreamOutcome.response 200 b) :
    (fetch_metal_price_from_api metal oc).result = none := by
  unfold fetch_metal_price_from_api
  rcases he : metal_endpoints (pyLower metal) with _ | e
  · rfl
  · rcases oc with ⟨st, b⟩ | _ | _
    · have hst : st ≠ 200 := fun hs => hoc b (by rw [hs])
      simp [hst]
    · rfl
    · rfl

/-- On a 200 response for a supported metal, the returned dict is exactly
the converted/defaulted record of server.py lines 141-150. -/
theorem fetch_200_result (metal : String) (h : pyLower metal ∈ metals) (body : GoldApiBody) :
    (fetch_metal_price_from_api metal (UpstreamOutcome.response 200 body)).result = some
      { price_per_oz_usd := body.price.getD 0
        price_per_gram_inr := toGramsInr (body.price.getD 0)
        change_24h := body.ch.getD 0
        change_pct := body.chp.getD 0
        prev_close_price := toGramsInr (body.prev_close_price.getD (body.price.getD 0))
        open_price := toGramsInr (body.open_price.getD (body.price.getD 0))
        high_price := toGramsInr (body.high_price.getD (body.price.getD 0))
        low_price := toGramsInr (body.low_price.getD (body.price.getD 0)) } := by
  unfold fetch_metal_price_from_api
  simp only [metals, List.mem_cons, List.not_mem_nil, or_false] at h
  rcases h with h | h | h | h <;> rw [h] <;> rfl

/-- A supported metal always resolves to a record (API data or fallback),
whose `metal` field is the title-cased input. -/
theorem gmp_supported_ok (m : String) (hmock : (MOCK_METAL_PRICES (pyLower m)).isSome)
    (oc : UpstreamOutcome) (now : DTime) :
    ∃ r, get_metal_price m oc now = .ok r ∧ r.metal = pyTitle m := by
  unfold get_metal_price
  rcases hr : (fetch_metal_price_from_api m oc).result with _ | d
  · rcases hm2 : MOCK_METAL_PRICES (pyLower m) with _ | r
    · rw [hm2] at hmock
      simp at hmock
    · exact ⟨_, rfl, rfl⟩
  · exact ⟨_, rfl, rfl⟩

/-- Rounding to two decimals moves a rational by at most `1/200`. -/
theorem round2_sub_le (x : ℚ) : |round2 x - x| ≤ 1 / 200 := by
  have h := abs_sub_round (100 * x)
  rw [abs_sub_comm] at h
  have h2 : round2 x - x = (((round (100 * x) : ℤ) : ℚ) - 100 * x) / 100 := by
    unfold round2
    ring
  rw [h2, abs_div]
  have h3 : |(100 : ℚ)| = 100 := by norm_num
  rw [h3]
  linarith

/-! ### Claim theorems -/

/-- C1, counterexample: a 200 upstream response whose JSON body is `{}`
makes `get_metal_price "gold"` return a record with
`price_per_gram_inr = 0` (the missing `price` defaults to `0`, not to a
positive value), so the claimed invariant "strictly positive for every
possible upstream outcome, including success with any parsed JSON body"
is false. -/
theorem C1_counterexample :
    (get_metal_price "gold" (UpstreamOutcome.response 200 emptyBody) dt0).toOption.map
      MetalPriceResponse.price_per_gram_inr = some 0 := by
  have hf := fetch_200_result "gold" (by decide) emptyBody
  unfold get_metal_price
  rw [hf]
  simp [emptyBody, toGramsInr, round2, Except.toOption]

/-- Claim C1 (amended): for each of the four supported metals, whenever
the upstream outcome is not a 200 response (non-200 response, transport
error, or timeout), `get_metal_price` returns a record — built from the
fallback table — whose `price_per_gram_inr` and four OHLC fields are all
strictly positive. -/
theorem C1_fallback_positive (m : String) (hm : m ∈ metals) (oc : UpstreamOutcome)
    (hoc : ∀ b, oc ≠ UpstreamOutcome.response 200 b) (now : DTime) :
    ∃ r, get_metal_price m oc now = .ok r ∧ 0 < r.price_per_gram_inr ∧
      0 < r.prev_close_price ∧ 0 < r.open_price ∧ 0 < r.high_price ∧ 0 < r.low_price := by
  have hnone := fetch_result_none_of_not200 m oc hoc
  unfold get_metal_price
  rw [hnone]
  fin_cases hm <;> refine ⟨_, rfl, ?_, ?_, ?_, ?_, ?_⟩ <;> norm_num

/-- Witness for C1: gold with an upstream timeout. -/
theorem C1_fallback_positive_witness :
    ∃ r, get_metal_price "gold" UpstreamOutcome.timeout dt0 = .ok r ∧
      0 < r.price_per_gram_inr ∧ 0 < r.prev_close_price ∧ 0 < r.open_price ∧
      0 < r.high_price ∧ 0 < r.low_price :=
  C1_fallback_positive "gold" (by decide) UpstreamOutcome.timeout
    (fun b h => UpstreamOutcome.noConfusion h) dt0

/-- C2, counterexample: for an unsupported metal the fetch returns the
same observable failure value (`None`) that an upstream transport error
produces for a supported metal — there is no distinct `UnsupportedMetal`
failure, because the internal `HTTPException(400)` is caught by the
function's own blanket `except Exception` handler. -/
theorem C2_counterexample :
    (fetch_metal_price_from_api "unknownmetal" (UpstreamOutcome.response 200 goldBody2000)).result
        = none ∧
      (fetch_metal_price_from_api "gold" UpstreamOutcome.transportError).result = none ∧
      (fetch_metal_price_from_api "unknownmetal" (UpstreamOutcome.response 200 goldBody2000)).result
        = (fetch_metal_price_from_api "gold" UpstreamOutcome.transportError).result := by
  refine ⟨?_, ?_, ?_⟩ <;> decide

/-- Claim C2 (amended): for every input string that is not one of the four
supported metal symbols after lowercasing, `fetch_metal_price_from_api`
performs no network request and returns `None` — the same failure value
used for upstream outages — rather than a distinct `UnsupportedMetal`
failure (the `HTTPException(400)` it raises internally is swallowed by its
own blanket `except`). -/
theorem C2_unsupported_no_request (metal : String) (oc : UpstreamOutcome)
    (h : pyLower metal ∉ metals) :
    fetch_metal_price_from_api metal oc = { result := none, requested := false } :=
  fetch_unsupported h oc

/-- Witness for C2: the string "unknownmetal". -/
theorem C2_unsupported_no_request_witness :
    fetch_metal_price_from_api "unknownmetal" UpstreamOutcome.timeout
      = { result := none, requested := false } :=
  C2_unsupported_no_request "unknownmetal" UpstreamOutcome.timeout (by decide)

/-- Claim C3 (confirmed): whatever the per-metal upstream outcomes and
clock readings, `get_all_metal_prices` returns exactly 4 records whose
`metal` fields are "Gold", "Silver", "Platinum", "Palladium" — in
particular it still returns 4 records (from the fallback table) when every
upstream fetch fails. -/
theorem C3_resolveAll_four_records (outcomes : String → UpstreamOutcome) (now : String → DTime) :
    ∃ l, get_all_metal_prices outcomes now = .ok l ∧ l.length = 4 ∧
      l.map MetalPriceResponse.metal = ["Gold", "Silver", "Platinum", "Palladium"] := by
  obtain ⟨r1, h1, hm1⟩ := gmp_supported_ok "gold" (by decide) (outcomes "gold") (now "gold")
  obtain ⟨r2, h2, hm2⟩ := gmp_supported_ok "silver" (by decide) (outcomes "silver")
    (now "silver")
  obtain ⟨r3, h3, hm3⟩ := gmp_supported_ok "platinum" (by decide) (outcomes "platinum")
    (now "platinum")
  obtain ⟨r4, h4, hm4⟩ := gmp_supported_ok "palladium" (by decide) (outcomes "palladium")
    (now "palladium")
  refine ⟨[r1, r2, r3, r4], ?_, rfl, ?_⟩
  · simp [get_all_metal_prices, metals, aggregate_results, h1, h2, h3, h4, Except.toOption]
  · simp only [List.map_cons, List.map_nil, hm1, hm2, hm3, hm4]
    decide

/-- C4, counterexample: on the spec's gold example
`{price: 2000, ch: 10, chp: 0.5}` the code computes
`round((2000/31.1035)*83.5, 2) = 5369.17`, not the 5368.18 the claim
states (the two differ by 0.99, far beyond 2-decimal rounding). -/
theorem C4_counterexample :
    (fetch_metal_price_from_api "gold" (UpstreamOutcome.response 200 goldBody2000)).result.map
        FetchedData.price_per_gram_inr = some 5369.17 ∧ (5369.17 : ℚ) ≠ 5368.18 := by
  constructor
  · rw [fetch_200_result "gold" (by decide) goldBody2000]
    show some (toGramsInr ((goldBody2000.price).getD 0)) = some 5369.17
    norm_num [goldBody2000, toGramsInr, round2, TROY_OUNCE_GRAMS, usd_to_inr, round_eq]
  · norm_num

/-- Claim C4 (amended): when the upstream fetch for "gold" succeeds with a
body containing price 2000 (ch 10, chp 0.5) and the fixed rate is 83.5,
the resulting `price_per_gram_inr` equals `(2000/31.1035)*83.5` rounded to
2 decimal places, which is 5369.17. -/
theorem C4_gold_2000_value :
    (fetch_metal_price_from_api "gold" (UpstreamOutcome.response 200 goldBody2000)).result.map
        FetchedData.price_per_gram_inr
      = some (round2 (2000 / TROY_OUNCE_GRAMS * usd_to_inr)) ∧
    round2 (2000 / TROY_OUNCE_GRAMS * usd_to_inr) = 5369.17 := by
  constructor
  · rw [fetch_200_result "gold" (by decide) goldBody2000]
    rfl
  · unfold round2 TROY_OUNCE_GRAMS usd_to_inr
    norm_num [round_eq]

/-- Claim C5 (confirmed): for every input string outside the supported set
(after lowercasing), `get_metal_price` raises `HTTPException(404)` — the
`MetalNotFound` case — and returns no price record. -/
theorem C5_unknown_metal_404 (metal : String) (oc : UpstreamOutcome) (now : DTime)
    (h : pyLower metal ∉ metals) :
    get_metal_price metal oc now =
      .error { status_code := 404, detail := "Metal " ++ metal ++ " not found" } := by
  have hf := fetch_unsupported h oc
  have hmock : MOCK_METAL_PRICES (pyLower metal) = none := mock_none h
  unfold get_metal_price
  rw [hf, hmock]

/-- Witness for C5: the string "unknownmetal". -/
theorem C5_unknown_metal_404_witness :
    get_metal_price "unknownmetal" UpstreamOutcome.timeout dt0 =
      .error { status_code := 404, detail := "Metal " ++ "unknownmetal" ++ " not found" } :=
  C5_unknown_metal_404 "unknownmetal" UpstreamOutcome.timeout dt0 (by decide)

/-- Claim C6 (confirmed): the batch aggregation of `get_all_metal_prices`
drops every failed per-metal resolution from the result list and raises
`HTTPException(500)` ("AllSourcesFailed") exactly when zero of the
per-metal resolutions succeed; `get_all_metal_prices` is that aggregation
applied to the four per-metal resolutions. -/
theorem C6_batch_error_iff_all_fail (results : List (Except HTTPError MetalPriceResponse))
    (outcomes : String → UpstreamOutcome) (now : String → DTime) :
    aggregate_results results =
      (if ∀ r ∈ results, r.toOption = none then
        .error { status_code := 500, detail := "Could not fetch any metal prices" }
      else .ok (results.filterMap Except.toOption)) ∧
    get_all_metal_prices outcomes now =
      aggregate_results (metals.map fun m => get_metal_price m (outcomes m) (now m)) := by
  refine ⟨?_, rfl⟩
  unfold aggregate_results
  by_cases h : ∀ r ∈ results, r.toOption = none
  · rw [if_pos h, if_pos]
    rw [List.isEmpty_iff]
    exact List.filterMap_eq_nil_iff.mpr h
  · rw [if_neg h, if_neg]
    rw [List.isEmpty_iff]
    intro hc
    exact h (List.filterMap_eq_nil_iff.mp hc)

/-- C7, counterexample: on the gold example body
`{price: 2000, ch: 10, chp: 0.5}` the fetched `change_24h` is the raw
upstream `ch = 10`, whereas converting it like the price and OHLC fields
would give `round((10/31.1035)*83.5, 2) = 26.85` — the change fields are
not converted. -/
theorem C7_counterexample :
    (fetch_metal_price_from_api "gold" (UpstreamOutcome.response 200 goldBody2000)).result.map
        FetchedData.change_24h = some 10 ∧
      toGramsInr 10 = 26.85 ∧ (10 : ℚ) ≠ 26.85 := by
  refine ⟨?_, ?_, ?_⟩
  · rw [fetch_200_result "gold" (by decide) goldBody2000]
    rfl
  · norm_num [toGramsInr, round2, TROY_OUNCE_GRAMS, usd_to_inr, round_eq]
  · norm_num

/-- Claim C7 (amended): on a successful upstream fetch the price and the
four OHLC fields are converted with the troy-ounce-to-gram constant and
the fixed rate, but the two change fields `ch` and `chp` are copied into
the result raw (defaulting to 0), without any conversion. -/
theorem C7_change_fields_unconverted (metal : String) (body : GoldApiBody)
    (h : pyLower metal ∈ metals) :
    (fetch_metal_price_from_api metal (UpstreamOutcome.response 200 body)).result.map
        FetchedData.change_24h = some (body.ch.getD 0) ∧
    (fetch_metal_price_from_api metal (UpstreamOutcome.response 200 body)).result.map
        FetchedData.change_pct = some (body.chp.getD 0) ∧
    (fetch_metal_price_from_api metal (UpstreamOutcome.response 200 body)).result.map
        FetchedData.price_per_gram_inr = some (toGramsInr (body.price.getD 0)) ∧
    (fetch_metal_price_from_api metal (UpstreamOutcome.response 200 body)).result.map
        FetchedData.prev_close_price
      = some (toGramsInr (body.prev_close_price.getD (body.price.getD 0))) ∧
    (fetch_metal_price_from_api metal (UpstreamOutcome.response 200 body)).result.map
        FetchedData.open_price
      = some (toGramsInr (body.open_price.getD (body.price.getD 0))) ∧
    (fetch_metal_price_from_api metal (UpstreamOutcome.response 200 body)).result.map
        FetchedData.high_price
      = some (toGramsInr (body.high_price.getD (body.price.getD 0))) ∧
    (fetch_metal_price_from_api metal (UpstreamOutcome.response 200 body)).result.map
        FetchedData.low_price
      = some (toGramsInr (body.low_price.getD (body.price.getD 0))) := by
  refine ⟨?_, ?_, ?_, ?_, ?_, ?_, ?_⟩ <;> rw [fetch_200_result metal h body] <;> rfl

/-- Witness for C7: gold with the example body. -/
theorem C7_change_fields_unconverted_witness :
    (fetch_metal_price_from_api "gold" (UpstreamOutcome.response 200 goldBody2000)).result.map
        FetchedData.change_24h = some (goldBody2000.ch.getD 0) ∧
    (fetch_metal_price_from_api "gold" (UpstreamOutcome.response 200 goldBody2000)).result.map
        FetchedData.change_pct = some (goldBody2000.chp.getD 0) ∧
    (fetch_metal_price_from_api "gold" (UpstreamOutcome.response 200 goldBody2000)).result.map
        FetchedData.price_per_gram_inr = some (toGramsInr (goldBody2000.price.getD 0)) ∧
    (fetch_metal_price_from_api "gold" (UpstreamOutcome.response 200 goldBody2000)).result.map
        FetchedData.prev_close_price
      = some (toGramsInr (goldBody2000.prev_close_price.getD (goldBody2000.price.getD 0))) ∧
    (fetch_metal_price_from_api "gold" (UpstreamOutcome.response 200 goldBody2000)).result.map
        FetchedData.open_price
      = some (toGramsInr (goldBody2000.open_price.getD (goldBody2000.price.getD 0))) ∧
    (fetch_metal_price_from_api "gold" (UpstreamOutcome.response 200 goldBody2000)).result.map
        FetchedData.high_price
      = some (toGramsInr (goldBody2000.high_price.getD (goldBody2000.price.getD 0))) ∧
    (fetch_metal_price_from_api "gold" (UpstreamOutcome.response 200 goldBody2000)).result.map
        FetchedData.low_price
      = some (toGramsInr (goldBody2000.low_price.getD (goldBody2000.price.getD 0))) :=
  C7_change_fields_unconverted "gold" goldBody2000 (by decide)

/-- C8, counterexample: on a 200 response with body `{price: 2000}` the
missing optional field `ch` is defaulted to `0`, not to the quoted price
2000 — so "every missing optional field is defaulted to the quoted price
itself" is false. -/
theorem C8_counterexample :
    (fetch_metal_price_from_api "gold"
        (UpstreamOutcome.response 200
          { price := some 2000, ch := none, chp := none, prev_close_price := none
            open_price := none, high_price := none, low_price := none })).result.map
      FetchedData.change_24h = some 0 ∧ (0 : ℚ) ≠ 2000 := by
  constructor
  · rw [fetch_200_result "gold" (by decide)
      { price := some 2000, ch := none, chp := none, prev_close_price := none
        open_price := none, high_price := none, low_price := none }]
    rfl
  · norm_num

/-- Claim C8 (amended): on a 200 response, a missing OHLC field
(prev_close, open, high, low) is defaulted to the quoted price itself
(then converted); a missing `ch` or `chp` is defaulted to 0; a missing
`price` is defaulted to 0 (via `getD 0`), not to a positive quote. -/
theorem C8_missing_defaults (metal : String) (body : GoldApiBody) (h : pyLower metal ∈ metals)
    (hpc : body.prev_close_price = none) (hop : body.open_price = none)
    (hhi : body.high_price = none) (hlo : body.low_price = none)
    (hch : body.ch = none) (hchp : body.chp = none) :
    (fetch_metal_price_from_api metal (UpstreamOutcome.response 200 body)).result = some
      { price_per_oz_usd := body.price.getD 0
        price_per_gram_inr := toGramsInr (body.price.getD 0)
        change_24h := 0
        change_pct := 0
        prev_close_price := toGramsInr (body.price.getD 0)
        open_price := toGramsInr (body.price.getD 0)
        high_price := toGramsInr (body.price.getD 0)
        low_price := toGramsInr (body.price.getD 0) } := by
  rw [fetch_200_result metal h body, hpc, hop, hhi, hlo, hch, hchp]
  rfl

/-- Witness for C8: gold with body `{price: 2000}`. -/
theorem C8_missing_defaults_witness :
    (fetch_metal_price_from_api "gold"
        (UpstreamOutcome.response 200
          { price := some 2000, ch := none, chp := none, prev_close_price := none
            open_price := none, high_price := none, low_price := none })).result = some
      { price_per_oz_usd := 2000
        price_per_gram_inr := toGramsInr 2000
        change_24h := 0
        change_pct := 0
        prev_close_price := toGramsInr 2000
        open_price := toGramsInr 2000
        high_price := toGramsInr 2000
        low_price := toGramsInr 2000 } :=
  C8_missing_defaults "gold"
    { price := some 2000, ch := none, chp := none, prev_close_price := none
      open_price := none, high_price := none, low_price := none }
    (by decide) rfl rfl rfl rfl rfl rfl

/-- Claim C9 (confirmed): for every raw USD-per-troy-ounce price `P`,
dividing the converted output by the fixed rate and multiplying by the
troy-ounce constant reconstructs `P` within the tolerance of the 2-decimal
rounding of the output, namely `(1/200)·31.1035/83.5`. -/
theorem C9_roundtrip (P : ℚ) :
    |toGramsInr P / usd_to_inr * TROY_OUNCE_GRAMS - P|
      ≤ 1 / 200 * TROY_OUNCE_GRAMS / usd_to_inr := by
  have hT : TROY_OUNCE_GRAMS ≠ 0 := by norm_num [TROY_OUNCE_GRAMS]
  have hu : usd_to_inr ≠ 0 := by norm_num [usd_to_inr]
  have h := round2_sub_le (P / TROY_OUNCE_GRAMS * usd_to_inr)
  have key : toGramsInr P / usd_to_inr * TROY_OUNCE_GRAMS - P
      = (round2 (P / TROY_OUNCE_GRAMS * usd_to_inr) - P / TROY_OUNCE_GRAMS * usd_to_inr)
        * (TROY_OUNCE_GRAMS / usd_to_inr) := by
    unfold toGramsInr
    field_simp
    ring
  have hfracpos : (0:ℚ) < TROY_OUNCE_GRAMS / usd_to_inr := by
    norm_num [TROY_OUNCE_GRAMS, usd_to_inr]
  rw [key, abs_mul, abs_of_pos hfracpos]
  calc |round2 (P / TROY_OUNCE_GRAMS * usd_to_inr) - P / TROY_OUNCE_GRAMS * usd_to_inr|
        * (TROY_OUNCE_GRAMS / usd_to_inr)
      ≤ 1 / 200 * (TROY_OUNCE_GRAMS / usd_to_inr) :=
        mul_le_mul_of_nonneg_right h (le_of_lt hfracpos)
    _ = 1 / 200 * TROY_OUNCE_GRAMS / usd_to_inr := by ring

/-- Claim C10 (confirmed): `get_metal_price` is case-insensitive — any
string that lowercases to a supported metal name resolves identically to
the lowercase name itself, given the same upstream outcome and clock, and
the returned `metal` field is the title-cased name. -/
theorem C10_case_insensitive (s m : String) (hm : m ∈ metals) (h : pyLower s = m)
    (oc : UpstreamOutcome) (now : DTime) :
    get_metal_price s oc now = get_metal_price m oc now ∧
    ∃ r, get_metal_price m oc now = .ok r ∧ r.metal = pyTitle m := by
  have hlm : pyLower m = m := by fin_cases hm <;> decide
  have hl : pyLower s = pyLower m := by rw [h, hlm]
  have ht : pyTitle s = pyTitle m := by rw [← pyTitle_pyLower s, h]
  have hmock : (MOCK_METAL_PRICES (pyLower m)).isSome := by
    rw [hlm]
    fin_cases hm <;> decide
  exact ⟨gmp_congr hl ht hmock oc now, gmp_supported_ok m hmock oc now⟩

/-- Witness for C10: "GOLD" resolves exactly like "gold". -/
theorem C10_case_insensitive_witness :
    get_metal_price "GOLD" UpstreamOutcome.transportError dt0 =
        get_metal_price "gold" UpstreamOutcome.transportError dt0 ∧
      ∃ r, get_metal_price "gold" UpstreamOutcome.transportError dt0 = .ok r ∧
        r.metal = pyTitle "gold" :=
  C10_case_insensitive "GOLD" "gold" (by decide) (by decide)
    UpstreamOutcome.transportError dt0

end SimplifyMoney
